import Mathlib

/-
Verification of the async-rusqlite core (src/lib.rs) against its
natural-language specification.

The library wraps a blocking `rusqlite::Connection` in a worker thread
owned by the `asyncified` crate. The state owned by the worker is an
`Option rusqlite::Connection` slot: `some c` when open, `none` once
closed. `Connection::call` and `Connection::close` each submit one
closure operating on that slot; the worker executes submitted closures
sequentially in FIFO order and sends each result back on a per-call
one-shot channel.

We embed the closures submitted by `call` and `close` directly from
src/lib.rs, abstracting the external `rusqlite::Connection` as a type
parameter `Conn` and its native `close` operation as a function
parameter. The worker loop itself lives in the `asyncified` crate,
which is not part of src/; where a claim depends on it, the worker is
modelled from the spec (see the doc comments of those definitions).
-/

namespace AsyncRusqlite

/-- The `rusqlite::ffi::ErrorCode` values the library mentions; only
`CannotOpen` is used by src/lib.rs. -/
inductive ErrorCode : Type where
  | CannotOpen : ErrorCode
  | OtherCode : Nat → ErrorCode
  deriving DecidableEq

/-- Embedding of `rusqlite::ffi::Error`: a primary error code plus an
extended error code. -/
structure FfiError : Type where
  code : ErrorCode
  extended_code : Int
  deriving DecidableEq

/-- The SQLite constant `SQLITE_CANTOPEN` (value 14). -/
def SQLITE_CANTOPEN : Int := 14

/-- Embedding of `rusqlite::Error` as far as the library observes it:
the `SqliteFailure` constructor (an ffi error plus optional message)
built by `From<AlreadyClosed> for rusqlite::Error`, and an opaque
constructor standing for every other rusqlite error, which the core
never inspects. -/
inductive RusqliteError : Type where
  | SqliteFailure : FfiError → Option String → RusqliteError
  | Other : Nat → RusqliteError
  deriving DecidableEq

/-- Embedding of the `AlreadyClosed` marker struct from src/lib.rs. -/
structure AlreadyClosed : Type where
  deriving DecidableEq

/-- Embedding of the library's `Error` enum from src/lib.rs. -/
inductive Error : Type where
  | AlreadyClosed : Error
  | Rusqlite : RusqliteError → Error
  deriving DecidableEq

/-- Embedding of `impl From<AlreadyClosed> for rusqlite::Error`
(src/lib.rs): builds `SqliteFailure` with code `CannotOpen`, extended
code `SQLITE_CANTOPEN` and no message. -/
def alreadyClosedToRusqliteError (_ : AlreadyClosed) : RusqliteError :=
  RusqliteError.SqliteFailure ⟨ErrorCode.CannotOpen, SQLITE_CANTOPEN⟩ none

/-- Embedding of `impl From<AlreadyClosed> for Error` (src/lib.rs). -/
def alreadyClosedToError (_ : AlreadyClosed) : Error :=
  Error.AlreadyClosed

/--
Embedding of the closure that `Connection::call` submits to the worker
(src/lib.rs lines 266-271):

  match conn : Some(conn) => Ok(f(conn)?), None => Err(AlreadyClosed.into())

`Conn` abstracts `rusqlite::Connection`. The user closure `f` receives
`&mut Connection`, modelled as `Conn → Conn × Except E R` (the updated
connection plus the returned result). `fromAlreadyClosed` is the
caller-supplied `From<AlreadyClosed>` conversion of the error type `E`.
The function maps the slot before the closure to the slot after it,
paired with the value sent back on the reply channel.
-/
def call_closure (Conn R E : Type) (fromAlreadyClosed : AlreadyClosed → E)
    (f : Conn → Conn × Except E R) :
    Option Conn → Option Conn × Except E R
  | some c => (some (f c).1, (f c).2)
  | none => (none, Except.error (fromAlreadyClosed ⟨⟩))

/--
Embedding of the closure that `Connection::close` submits to the worker
(src/lib.rs lines 235-251). `conn.take()` empties the slot; on a native
close failure `Err((c, err))` the connection from the error tuple is put
back (`*conn = Some(c)`) and `Error::Rusqlite(err)` returned; when the
slot was already empty, `Error::AlreadyClosed` is returned.
`native_close` abstracts `rusqlite::Connection::close`, which consumes
the connection and on failure hands it back together with the error.
-/
def close_closure (Conn : Type)
    (native_close : Conn → Except (Conn × RusqliteError) Unit) :
    Option Conn → Option Conn × Except Error Unit
  | some c =>
    match native_close c with
    | Except.ok _ => (none, Except.ok ())
    | Except.error p => (some p.1, Except.error (Error.Rusqlite p.2))
  | none => (none, Except.error Error.AlreadyClosed)

/--
Modelled from the spec: the worker run loop of the `asyncified` crate
(not under src/). The worker owns the state `S` (here always
`Option Conn`), repeatedly receives the next envelope from the bounded
FIFO queue, executes its closure with exclusive mutable access to the
state, and sends the result through that envelope's reply channel. The
queue contents at shutdown are a list of envelopes in enqueue order;
each envelope maps the state to the updated state plus the reply value
of type `ρ`. `worker_run` returns the final state and the replies in
execution order.
-/
def worker_run (S ρ : Type) : S → List (S → S × ρ) → S × List ρ
  | s, [] => (s, [])
  | s, e :: es =>
    let r := e s
    let rest := worker_run S ρ r.1 es
    (rest.1, r.2 :: rest.2)

/--
Embedding of the finalizer wrapper registered by
`ConnectionBuilder::on_close` (src/lib.rs line 90): the user callback
`f` expects `Option rusqlite::Connection`; the closure handed to
`asyncified` receives the mutable slot and calls `f(o.take())`, so `f`
sees `some c` when the connection is still present and `none` when
already closed, and the slot is left empty.
-/
def on_close_wrapper (Conn σ : Type) (f : Option Conn → σ) :
    Option Conn → Option Conn × σ :=
  fun o => (none, f o)

/--
Modelled from the spec: worker termination in the `asyncified` crate
(not under src/). When the queue is closed and drained (all handles
dropped), the worker exits its loop; before exiting it invokes the
registered finalizer, if any, exactly once on the current slot
contents. The third component of the result lists the finalizer
invocation results, so its length counts how often the finalizer ran.
-/
def worker_shutdown (Conn ρ σ : Type) (slot : Option Conn)
    (es : List (Option Conn → Option Conn × ρ))
    (finalizer : Option (Option Conn → Option Conn × σ)) :
    Option Conn × List ρ × List σ :=
  let r := worker_run (Option Conn) ρ slot es
  match finalizer with
  | some g =>
    let q := g r.1
    (q.1, r.2, [q.2])
  | none => (r.1, r.2, [])

/-- Modelled from the spec: the handle returned by a successful build;
it wraps the worker whose slot was initialised by the factory. -/
structure Worker (S : Type) : Type where
  slot : S

/--
Modelled from the spec: `AsyncifiedBuilder::build` of the `asyncified`
crate (not under src/). It spawns the worker thread and runs the
factory closure on it; if the factory fails, the error is surfaced
directly from the open operation and the thread exits, leaving no
worker running — which the `Except` result captures: an error carries
no `Worker` at all. On success the worker owns the produced state.
-/
def build (S E : Type) (factory : Except E S) : Except E (Worker S) :=
  match factory with
  | Except.ok s => Except.ok ⟨s⟩
  | Except.error e => Except.error e

/--
Embedding of `ConnectionBuilder::open` (src/lib.rs lines 101-107): the
factory passed to `build` runs the underlying SQLite open call
(abstracted as `sqlite_open`) and maps a successful connection to
`Some`, seeding the worker's slot.
-/
def ConnectionBuilder_open (Conn : Type)
    (sqlite_open : Except RusqliteError Conn) :
    Except RusqliteError (Worker (Option Conn)) :=
  build (Option Conn) RusqliteError (Except.map some sqlite_open)

/-! ### Helper lemmas -/

theorem worker_run_length (S ρ : Type) (s : S)
    (es : List (S → S × ρ)) :
    (worker_run S ρ s es).2.length = es.length := by
  induction es generalizing s with
  | nil => rfl
  | cons e es ih => simp [worker_run, ih]

theorem close_closure_ok_slot (Conn : Type)
    (native_close : Conn → Except (Conn × RusqliteError) Unit)
    (slot slot2 : Option Conn)
    (h : close_closure Conn native_close slot = (slot2, Except.ok ())) :
    slot2 = none := by
  cases slot with
  | none => simp [close_closure] at h
  | some c =>
    cases hc : native_close c with
    | ok u =>
      simp [close_closure, hc] at h
      exact h.symm
    | error p => simp [close_closure, hc] at h

theorem worker_run_state (S ρ : Type) (slot : S)
    (es : List (S → S × ρ)) :
    (worker_run S ρ slot es).1 = es.foldl (fun s e => (e s).1) slot := by
  induction es generalizing slot with
  | nil => rfl
  | cons e es ih => simp [worker_run, List.foldl, ih]

theorem worker_run_get (S ρ : Type) (slot : S) (es : List (S → S × ρ))
    (i : Nat) (h : i < es.length) :
    (worker_run S ρ slot es).2.get ⟨i, by rw [worker_run_length]; exact h⟩
      = (es.get ⟨i, h⟩ ((worker_run S ρ slot (List.take i es)).1)).2 := by
  induction es generalizing slot i with
  | nil => exact absurd h (by simp)
  | cons e es ih =>
    cases i with
    | zero => rfl
    | succ j =>
      simpa [worker_run] using ih (e slot).1 j (by simpa using h)

/-! ### Claim theorems -/

/-- C1: for every call issued after a successful close (the slot is
`none` afterwards), `Connection::call` returns the error obtained by
converting the `AlreadyClosed` marker through the caller's
`From<AlreadyClosed>` conversion, and the user closure is never
invoked: the result is identical for every pair of closures. -/
theorem C1_call_after_successful_close (Conn R E : Type)
    (fromAlreadyClosed : AlreadyClosed → E)
    (native_close : Conn → Except (Conn × RusqliteError) Unit)
    (slot slot2 : Option Conn)
    (hclose : close_closure Conn native_close slot = (slot2, Except.ok ()))
    (f g : Conn → Conn × Except E R) :
    call_closure Conn R E fromAlreadyClosed f slot2
      = (none, Except.error (fromAlreadyClosed ⟨⟩)) ∧
    call_closure Conn R E fromAlreadyClosed f slot2
      = call_closure Conn R E fromAlreadyClosed g slot2 := by
  have h2 : slot2 = none :=
    close_closure_ok_slot Conn native_close slot slot2 hclose
  subst h2
  exact ⟨rfl, rfl⟩

/-- Concrete run of C1: closing a `Unit` connection succeeds, and a
subsequent call reports the converted already-closed error. -/
theorem C1_call_after_successful_close_witness :
    call_closure Unit Nat Error alreadyClosedToError
      (fun c => (c, Except.ok 0)) none
      = (none, Except.error (alreadyClosedToError ⟨⟩)) :=
  (C1_call_after_successful_close Unit Nat Error alreadyClosedToError
    (fun _ => Except.ok ()) (some ()) none rfl
    (fun c => (c, Except.ok 0)) (fun c => (c, Except.ok 1))).1

/-- C2: when the slot holds a connection and the native close fails
handing back the connection, `Connection::close` restores the
connection into the slot, returns `Error.Rusqlite` carrying the
original failure, and a subsequent call executes the user closure
against the preserved connection. -/
theorem C2_close_failure_restores (Conn R E : Type)
    (native_close : Conn → Except (Conn × RusqliteError) Unit)
    (c : Conn) (err : RusqliteError)
    (hfail : native_close c = Except.error (c, err))
    (fromAlreadyClosed : AlreadyClosed → E)
    (f : Conn → Conn × Except E R) :
    close_closure Conn native_close (some c)
      = (some c, Except.error (Error.Rusqlite err)) ∧
    call_closure Conn R E fromAlreadyClosed f (some c)
      = (some (f c).1, (f c).2) := by
  refine ⟨?_, rfl⟩
  simp [close_closure, hfail]

/-- Concrete run of C2: a failing native close on a `Unit` connection
restores the slot and surfaces the rusqlite error; a further call still
runs the user closure. -/
theorem C2_close_failure_restores_witness :
    close_closure Unit
        (fun _ => Except.error ((), RusqliteError.Other 7)) (some ())
      = (some (), Except.error (Error.Rusqlite (RusqliteError.Other 7))) ∧
    call_closure Unit Nat Error alreadyClosedToError
        (fun c => (c, Except.ok 5)) (some ())
      = (some (), Except.ok 5) :=
  C2_close_failure_restores Unit Nat Error
    (fun _ => Except.error ((), RusqliteError.Other 7)) ()
    (RusqliteError.Other 7) rfl alreadyClosedToError
    (fun c => (c, Except.ok 5))

/-- C3: `Connection::close` is idempotent in effect: a first close with
native success empties the slot and succeeds, a second close on the
resulting slot returns `Error.AlreadyClosed`, and closing an already
empty slot deterministically returns `Error.AlreadyClosed` leaving the
slot `none`. -/
theorem C3_close_idempotent (Conn : Type)
    (native_close : Conn → Except (Conn × RusqliteError) Unit)
    (c : Conn) (hok : native_close c = Except.ok ()) :
    close_closure Conn native_close (some c) = (none, Except.ok ()) ∧
    close_closure Conn native_close
        (close_closure Conn native_close (some c)).1
      = (none, Except.error Error.AlreadyClosed) ∧
    close_closure Conn native_close none
      = (none, Except.error Error.AlreadyClosed) := by
  have h1 : close_closure Conn native_close (some c)
      = (none, Except.ok ()) := by
    simp [close_closure, hok]
  refine ⟨h1, ?_, rfl⟩
  rw [h1]
  exact rfl

/-- Concrete run of C3: closing a `Unit` connection twice: success then
already-closed. -/
theorem C3_close_idempotent_witness :
    close_closure Unit (fun _ => Except.ok ()) (some ())
      = (none, Except.ok ()) ∧
    close_closure Unit (fun _ => Except.ok ())
        (close_closure Unit (fun _ => Except.ok ()) (some ())).1
      = (none, Except.error Error.AlreadyClosed) ∧
    close_closure Unit (fun _ => Except.ok ()) none
      = (none, Except.error Error.AlreadyClosed) :=
  C3_close_idempotent Unit (fun _ => Except.ok ()) () rfl

/-- C4: with the slot holding a connection, `Connection::call` invokes
the user closure exactly once with exclusive mutable access and
resolves to exactly the closure's result (success forwarded, error
forwarded verbatim). The second conjunct instruments the connection
with an invocation counter and shows it ends at exactly one. -/
theorem C4_call_open_runs_closure_once (Conn R E : Type)
    (fromAlreadyClosed : AlreadyClosed → E)
    (f : Conn → Conn × Except E R) (c : Conn) :
    call_closure Conn R E fromAlreadyClosed f (some c)
      = (some (f c).1, (f c).2) ∧
    (∀ n : Nat,
      call_closure (Conn × Nat) R E fromAlreadyClosed
          (fun p => (((f p.1).1, p.2 + 1), (f p.1).2)) (some (c, n))
        = (some ((f c).1, n + 1), (f c).2)) :=
  ⟨rfl, fun _ => rfl⟩

/-- C5: submissions are serviced in strict FIFO order by the single
worker: the replies are in bijection with the enqueued envelopes, the
i-th reply is the i-th envelope run on the state left by the first i
envelopes, and the final state is the sequential left fold of the
envelopes — no two calls execute concurrently against the resource. -/
theorem C5_worker_fifo_serial (S ρ : Type) (slot : S)
    (es : List (S → S × ρ)) (i : Nat) (h : i < es.length) :
    (worker_run S ρ slot es).2.length = es.length ∧
    (worker_run S ρ slot es).2.get ⟨i, by rw [worker_run_length]; exact h⟩
      = (es.get ⟨i, h⟩ ((worker_run S ρ slot (List.take i es)).1)).2 ∧
    (worker_run S ρ slot es).1 = es.foldl (fun s e => (e s).1) slot :=
  ⟨worker_run_length S ρ slot es, worker_run_get S ρ slot es i h,
    worker_run_state S ρ slot es⟩

/-- Concrete run of C5: two envelopes starting from state 1; the second
reply is computed from the state the first envelope left behind. -/
theorem C5_worker_fifo_serial_witness :
    (worker_run Nat Nat 1
      [fun s => (s + 1, s * 10), fun s => (s * 2, s + 100)]).2.length
      = 2 ∧
    (worker_run Nat Nat 1
      [fun s => (s + 1, s * 10), fun s => (s * 2, s + 100)]).2.get
        ⟨1, by decide⟩
      = 102 := by
  have h := C5_worker_fifo_serial Nat Nat 1
    [fun s => (s + 1, s * 10), fun s => (s * 2, s + 100)] 1 (by decide)
  refine ⟨h.1, ?_⟩
  rw [h.2.1]
  exact rfl

/-- C6: when the slot holds a connection and the native close succeeds,
`Connection::close` takes the connection out, leaves the slot `none`,
and returns success. -/
theorem C6_close_success_empties_slot (Conn : Type)
    (native_close : Conn → Except (Conn × RusqliteError) Unit)
    (c : Conn) (hok : native_close c = Except.ok ()) :
    close_closure Conn native_close (some c) = (none, Except.ok ()) := by
  simp [close_closure, hok]

/-- Concrete run of C6 on a `Unit` connection whose native close
succeeds. -/
theorem C6_close_success_empties_slot_witness :
    close_closure Unit (fun _ => Except.ok ()) (some ())
      = (none, Except.ok ()) :=
  C6_close_success_empties_slot Unit (fun _ => Except.ok ()) () rfl

/-- C7: a finalizer registered via `ConnectionBuilder::on_close` is
invoked exactly once at worker teardown, receiving `some c` when the
connection is still in the slot and `none` when it was already closed:
the list of finalizer invocations is exactly one call on the slot
contents left by the processed envelopes. -/
theorem C7_finalizer_exactly_once (Conn ρ σ : Type) (slot : Option Conn)
    (es : List (Option Conn → Option Conn × ρ))
    (f : Option Conn → σ) :
    (worker_shutdown Conn ρ σ slot es
        (some (on_close_wrapper Conn σ f))).2.2
      = [f (worker_run (Option Conn) ρ slot es).1] ∧
    ((worker_shutdown Conn ρ σ slot es
        (some (on_close_wrapper Conn σ f))).2.2).length = 1 :=
  ⟨rfl, rfl⟩

/-- C8: if the factory closure fails during open, the open operation
returns that error directly and no worker exists; a worker handle is
produced only when the factory succeeded, with its slot seeded by the
opened connection. -/
theorem C8_open_surfaces_factory_failure (Conn : Type)
    (sqlite_open : Except RusqliteError Conn) :
    (∀ e : RusqliteError, sqlite_open = Except.error e →
      ConnectionBuilder_open Conn sqlite_open = Except.error e) ∧
    (∀ c : Conn, sqlite_open = Except.ok c →
      ConnectionBuilder_open Conn sqlite_open
        = Except.ok ⟨some c⟩) := by
  constructor
  · intro e he
    subst he
    rfl
  · intro c hc
    subst hc
    rfl

/-- Concrete run of C8: a failing factory surfaces its error with no
worker; a succeeding factory yields a worker holding the connection. -/
theorem C8_open_surfaces_factory_failure_witness :
    ConnectionBuilder_open Unit (Except.error (RusqliteError.Other 3))
      = Except.error (RusqliteError.Other 3) ∧
    ConnectionBuilder_open Unit (Except.ok ())
      = Except.ok ⟨some ()⟩ :=
  ⟨(C8_open_surfaces_factory_failure Unit
      (Except.error (RusqliteError.Other 3))).1
      (RusqliteError.Other 3) rfl,
    (C8_open_surfaces_factory_failure Unit (Except.ok ())).2 () rfl⟩

/-- C9: the user closure in `Connection::call` only ever sees the
connection itself, never the slot, so a call leaves the open/closed
status of the slot invariant: `isSome` and `isNone` are preserved. -/
theorem C9_call_preserves_slot_status (Conn R E : Type)
    (fromAlreadyClosed : AlreadyClosed → E)
    (f : Conn → Conn × Except E R) (slot : Option Conn) :
    ((call_closure Conn R E fromAlreadyClosed f slot).1).isSome
      = slot.isSome ∧
    ((call_closure Conn R E fromAlreadyClosed f slot).1).isNone
      = slot.isNone := by
  cases slot <;> exact ⟨rfl, rfl⟩

/-- C10: converting `AlreadyClosed` into the library's `Error` yields
`Error.AlreadyClosed`, and converting it into `rusqlite::Error` yields
`SqliteFailure` with code `CannotOpen`, extended code
`SQLITE_CANTOPEN`, and no message. -/
theorem C10_already_closed_conversions :
    (∀ a : AlreadyClosed, alreadyClosedToError a = Error.AlreadyClosed) ∧
    (∀ a : AlreadyClosed,
      alreadyClosedToRusqliteError a
        = RusqliteError.SqliteFailure
            ⟨ErrorCode.CannotOpen, SQLITE_CANTOPEN⟩ none) :=
  ⟨fun _ => rfl, fun _ => rfl⟩

end AsyncRusqlite
